import Mathlib

/-!
Shallow embedding of the lane-runner player controller
(`src/components/World/Player.tsx`).

Numbers are idealised: JavaScript doubles become exact rationals (ℚ),
`Date.now()` timestamps become natural numbers of milliseconds, lanes are
integers.  Side effects (audio cues, the external `takeDamage` call) are
returned as explicit effect values instead of being performed.
-/

namespace Runner

/-- Gravity constant (units/s²), `GRAVITY` in Player.tsx. -/
def GRAVITY : ℚ := 50

/-- Jump impulse (units/s), `JUMP_FORCE` in Player.tsx. -/
def JUMP_FORCE : ℚ := 16

/-- JavaScript `Math.PI`, idealised as the rational value of its shortest
decimal representation.  It only appears as the clamp bound of the
double-jump flip and no claim depends on its exact value. -/
def MATH_PI : ℚ := 3.141592653589793

/-- Modelled from the spec: the `GameStatus` enum lives in `types.ts`,
which is not part of the provided sources; the spec lists
`runStatus ∈ {Idle, Playing, Shop, GameOver, …}`. -/
inductive GameStatus
  | idle
  | playing
  | shop
  | gameOver
deriving DecidableEq

/-- The controller's mutable state: React refs (`isJumping`, `velocityY`,
`jumpsPerformed`, `spinRotation`, `isInvincible`, `lastDamageTime`), the
`lane` React state, and the exposed presentation values
`groupRef.position.y` (`positionY`), `bodyRef.rotation.x` (`bodyRotX`) and
`groupRef.visible` (`visible`). -/
structure PlayerState where
  lane : Int
  positionY : ℚ
  velocityY : ℚ
  isJumping : Bool
  jumpsPerformed : Nat
  spinRotation : ℚ
  bodyRotX : ℚ
  isInvincible : Bool
  lastDamageTime : Nat
  visible : Bool
deriving DecidableEq

/-- The state installed by the reset effect when the run status becomes
PLAYING (Player.tsx lines 73-82), starting from lane 0 and a visible,
non-invincible character. -/
def initState : PlayerState :=
  { lane := 0, positionY := 0, velocityY := 0, isJumping := false,
    jumpsPerformed := 0, spinRotation := 0, bodyRotX := 0,
    isInvincible := false, lastDamageTime := 0, visible := true }

/-- `triggerJump` (Player.tsx lines 93-109).  Returns the new state and the
jump-sound cue: `some false` for the primary jump, `some true` for the
mid-air double jump, `none` when nothing happens. -/
def triggerJump (hasDoubleJump : Bool) (s : PlayerState) :
    PlayerState × Option Bool :=
  let maxJumps : Nat := if hasDoubleJump then 2 else 1
  if !s.isJumping then
    ({ s with isJumping := true, jumpsPerformed := 1,
              velocityY := JUMP_FORCE }, some false)
  else if s.jumpsPerformed < maxJumps then
    ({ s with jumpsPerformed := s.jumpsPerformed + 1,
              velocityY := JUMP_FORCE, spinRotation := 0 }, some true)
  else
    (s, none)

/-- The physics part of the `useFrame` callback (Player.tsx lines 172-196):
Euler integration with the old velocity, gravity, floor collision, and the
double-jump flip update.  The floor branch resets `bodyRef.rotation.x`
(`bodyRotX`) but leaves the `spinRotation` ref untouched. -/
def physicsStep (dt : ℚ) (s : PlayerState) : PlayerState :=
  if s.isJumping then
    let y2 := s.positionY + s.velocityY * dt
    let v2 := s.velocityY - GRAVITY * dt
    let s1 :=
      if y2 ≤ 0 then
        { s with positionY := 0, isJumping := false, jumpsPerformed := 0,
                 velocityY := 0, bodyRotX := 0 }
      else
        { s with positionY := y2, velocityY := v2 }
    if s1.jumpsPerformed = 2 then
      let spin1 := s1.spinRotation - dt * 15
      let spin2 := if spin1 < -(2 * MATH_PI) then -(2 * MATH_PI) else spin1
      { s1 with spinRotation := spin2, bodyRotX := spin2 }
    else
      s1
  else
    s

/-- The invincibility / immortality visibility block at the end of the
`useFrame` callback (Player.tsx lines 245-261).  The invincibility branch
runs first (auto-clear after a strict 1500 ms comparison, else the 50 ms
square-wave flicker); the immortality branch runs afterwards and
unconditionally forces `visible := true`. -/
def updateVisibility (immortal : Bool) (now : Nat) (s : PlayerState) :
    PlayerState :=
  let showFlicker := s.isInvincible || immortal
  if showFlicker then
    let s1 :=
      if s.isInvincible then
        if 1500 < now - s.lastDamageTime then
          { s with isInvincible := false, visible := true }
        else
          { s with visible := decide ((now / 50) % 2 = 0) }
      else
        s
    if immortal then { s1 with visible := true } else s1
  else
    { s with visible := true }

/-- Effect record for the hit handler: how many times the external
`takeDamage` store action was invoked and how many damage sound cues were
played. -/
structure HitEffects where
  damageApplied : Nat
  damageSound : Nat
deriving DecidableEq

/-- `checkHit` (Player.tsx lines 266-272): no-op when already invincible or
while immortality is active; otherwise play the damage sound, apply damage
once, arm invincibility and record the hit time. -/
def checkHit (immortal : Bool) (now : Nat) (s : PlayerState) :
    PlayerState × HitEffects :=
  if s.isInvincible || immortal then
    (s, ⟨0, 0⟩)
  else
    ({ s with isInvincible := true, lastDamageTime := now }, ⟨1, 1⟩)

/-- Dispatch of the window `player-hit` event (Player.tsx lines 265-275).
Unlike `handleKeyDown` and `handleTouchEnd`, the listener invokes
`checkHit` without any run-status guard, so the current status is ignored. -/
def onPlayerHit (_status : GameStatus) (immortal : Bool) (now : Nat)
    (s : PlayerState) : PlayerState × HitEffects :=
  checkHit immortal now s

/-- `maxLane = Math.floor(laneCount / 2)` (Player.tsx lines 86, 114, 138). -/
def maxLane (laneCount : Nat) : Int :=
  (laneCount / 2 : Nat)

/-- Left shift: `setLane(l => Math.max(l - 1, -maxLane))`
(Player.tsx lines 116 and 143). -/
def laneLeft (laneCount : Nat) (l : Int) : Int :=
  max (l - 1) (-(maxLane laneCount))

/-- Right shift: `setLane(l => Math.min(l + 1, maxLane))`
(Player.tsx lines 117 and 142). -/
def laneRight (laneCount : Nat) (l : Int) : Int :=
  min (l + 1) (maxLane laneCount)

/-- The lane re-clamp effect that runs whenever `laneCount` (or `lane`)
changes (Player.tsx lines 85-90). -/
def reclampLane (laneCount : Nat) (l : Int) : Int :=
  if maxLane laneCount < (l.natAbs : Int) then
    max (min l (maxLane laneCount)) (-(maxLane laneCount))
  else
    l

/-- External events driving the controller: a simulation frame, the two
input intents (gated on PLAYING status as in `handleKeyDown` /
`handleTouchEnd`), the ungated hit notification, the lane re-clamp effect,
and the reset effect on entering PLAYING. -/
inductive Event
  | frame (status : GameStatus) (dt : ℚ) (now : Nat) (immortal : Bool)
  | jump (status : GameStatus) (hasDoubleJump : Bool)
  | shiftLeft (status : GameStatus) (laneCount : Nat)
  | shiftRight (status : GameStatus) (laneCount : Nat)
  | hit (status : GameStatus) (immortal : Bool) (now : Nat)
  | laneRebound (laneCount : Nat)
  | resetPlay

/-- One transition of the controller.  The frame body runs only while the
status is PLAYING or SHOP (Player.tsx line 162); key/touch intents only
while PLAYING (lines 113, 135); the hit listener runs regardless. -/
def stepEvent : Event → PlayerState → PlayerState
  | .frame status dt now immortal, s =>
      if status = .playing ∨ status = .shop then
        updateVisibility immortal now (physicsStep dt s)
      else
        s
  | .jump status hasDoubleJump, s =>
      if status = .playing then (triggerJump hasDoubleJump s).1 else s
  | .shiftLeft status laneCount, s =>
      if status = .playing then
        { s with lane := laneLeft laneCount s.lane }
      else
        s
  | .shiftRight status laneCount, s =>
      if status = .playing then
        { s with lane := laneRight laneCount s.lane }
      else
        s
  | .hit status immortal now, s => (onPlayerHit status immortal now s).1
  | .laneRebound laneCount, s =>
      { s with lane := reclampLane laneCount s.lane }
  | .resetPlay, s =>
      { s with positionY := 0, velocityY := 0, isJumping := false,
               jumpsPerformed := 0, spinRotation := 0, bodyRotX := 0 }

/-- The state reached from the PLAYING reset state by a sequence of
events. -/
def run (evs : List Event) : PlayerState :=
  evs.foldl (fun s e => stepEvent e s) initState

/-- An airborne double-jump state mid-flip: height 1/20, falling at 1 unit/s,
flip rotation at -1 rad. -/
def landingSpinState : PlayerState :=
  { initState with
    isJumping := true
    jumpsPerformed := 2
    positionY := 1/20
    velocityY := -1
    spinRotation := -1
    bodyRotX := -1 }

/-- A state that has just been hit at time 0: invincible, timer armed. -/
def hitState : PlayerState :=
  { initState with isInvincible := true }

/-- An airborne state after a single jump. -/
def airborne1State : PlayerState :=
  { initState with isJumping := true, jumpsPerformed := 1 }

/-- C1 (amended): when a tick's integration yields `positionY ≤ 0`, the
floor branch sets `positionY = 0`, `verticalVelocity = 0`, `jumpsUsed = 0`,
clears the airborne flag and zeroes the exposed body flip rotation,
regardless of the prior airborne state — but the internal `spinRotation`
accumulator keeps its old value (it is only reset when a double jump
starts). -/
theorem c1_landing_resets (dt : ℚ) (s : PlayerState)
    (hj : s.isJumping = true)
    (hl : s.positionY + s.velocityY * dt ≤ 0) :
    (physicsStep dt s).positionY = 0 ∧
    (physicsStep dt s).velocityY = 0 ∧
    (physicsStep dt s).jumpsPerformed = 0 ∧
    (physicsStep dt s).isJumping = false ∧
    (physicsStep dt s).bodyRotX = 0 ∧
    (physicsStep dt s).spinRotation = s.spinRotation := by
  simp [physicsStep, hj, hl]

/-- C1 witness: the landing theorem applied to `landingSpinState` with
`dt = 1/10`, where the integrated height is `1/20 - 1/10 ≤ 0`. -/
theorem c1_landing_resets_witness :
    landingSpinState.isJumping = true ∧
    landingSpinState.positionY + landingSpinState.velocityY * (1/10) ≤ 0 ∧
    ((physicsStep (1/10) landingSpinState).positionY = 0 ∧
     (physicsStep (1/10) landingSpinState).velocityY = 0 ∧
     (physicsStep (1/10) landingSpinState).jumpsPerformed = 0 ∧
     (physicsStep (1/10) landingSpinState).isJumping = false ∧
     (physicsStep (1/10) landingSpinState).bodyRotX = 0 ∧
     (physicsStep (1/10) landingSpinState).spinRotation =
       landingSpinState.spinRotation) :=
  ⟨rfl, by norm_num [landingSpinState, initState],
   c1_landing_resets (1/10) landingSpinState rfl
     (by norm_num [landingSpinState, initState])⟩

/-- C1 counterexample: a landing tick from the double-jump state leaves the
`spinRotation` ref at its old value `-1` instead of resetting it to 0 (only
`bodyRef.rotation.x` is zeroed). -/
theorem c1_spin_not_reset :
    (physicsStep (1/10) landingSpinState).positionY = 0 ∧
    (physicsStep (1/10) landingSpinState).isJumping = false ∧
    (physicsStep (1/10) landingSpinState).spinRotation = -1 ∧
    (physicsStep (1/10) landingSpinState).spinRotation ≠ 0 := by
  norm_num [physicsStep, landingSpinState, initState, GRAVITY, MATH_PI]

/-- C4: while airborne, a tick that does not land performs exactly one
Euler step: the position is advanced with the old velocity, then the
velocity loses `GRAVITY * dt`. -/
theorem c4_euler_step (dt : ℚ) (s : PlayerState)
    (hj : s.isJumping = true)
    (hup : 0 < s.positionY + s.velocityY * dt) :
    (physicsStep dt s).positionY = s.positionY + s.velocityY * dt ∧
    (physicsStep dt s).velocityY = s.velocityY - GRAVITY * dt := by
  have hnot : ¬(s.positionY + s.velocityY * dt ≤ 0) := not_le.mpr hup
  by_cases h2 : s.jumpsPerformed = 2 <;> simp [physicsStep, hj, hnot, h2]

/-- C4 witness: the Euler step applied to `landingSpinState` with
`dt = 1/100`, where the integrated height `1/20 - 1/100` stays positive. -/
theorem c4_euler_step_witness :
    landingSpinState.isJumping = true ∧
    0 < landingSpinState.positionY + landingSpinState.velocityY * (1/100) ∧
    ((physicsStep (1/100) landingSpinState).positionY =
       landingSpinState.positionY + landingSpinState.velocityY * (1/100) ∧
     (physicsStep (1/100) landingSpinState).velocityY =
       landingSpinState.velocityY - GRAVITY * (1/100)) :=
  ⟨rfl, by norm_num [landingSpinState, initState],
   c4_euler_step (1/100) landingSpinState rfl
     (by norm_num [landingSpinState, initState])⟩

/-- C6: whenever `immortalityActive` is true, the visibility block leaves
`visible = true`, whatever the invincibility flicker decided first: the
immortality branch runs last and overrides it unconditionally. -/
theorem c6_immortality_forces_visible (now : Nat) (s : PlayerState) :
    (updateVisibility true now s).visible = true := by
  cases hi : s.isInvincible <;>
    by_cases ht : 1500 < now - s.lastDamageTime <;>
      simp [updateVisibility, hi, ht]

/-- C2 (amended): once `now - invincibleSince` strictly exceeds 1500 ms,
the next visibility update clears `isInvincible` and forces
`visible = true`; the source comparison is strict (`> 1500`), so at exactly
1500 ms the flag is still set. -/
theorem c2_invincibility_autoclears (immortal : Bool) (now : Nat)
    (s : PlayerState)
    (hinv : s.isInvincible = true)
    (ht : 1500 < now - s.lastDamageTime) :
    (updateVisibility immortal now s).isInvincible = false ∧
    (updateVisibility immortal now s).visible = true := by
  cases immortal <;> simp [updateVisibility, hinv, ht]

/-- C2 witness: the claim's own instance — hit at `t0 = 0`, tick at
`now = 1501`: invincibility is cleared and the character is visible. -/
theorem c2_invincibility_autoclears_witness :
    hitState.isInvincible = true ∧
    1500 < 1501 - hitState.lastDamageTime ∧
    ((updateVisibility false 1501 hitState).isInvincible = false ∧
     (updateVisibility false 1501 hitState).visible = true) :=
  ⟨rfl, by decide,
   c2_invincibility_autoclears false 1501 hitState rfl (by decide)⟩

/-- C2 counterexample: at `now - t0 = 1500` exactly (so `now - t0 ≥ 1500`
holds), the tick does not clear `isInvincible`, because the source compares
with strict `> 1500`. -/
theorem c2_not_cleared_at_1500 :
    hitState.isInvincible = true ∧
    1500 ≤ 1500 - hitState.lastDamageTime ∧
    (updateVisibility false 1500 hitState).isInvincible = true := by
  refine ⟨rfl, by decide, ?_⟩
  simp [updateVisibility, hitState, initState]

/-- C7: the hit handler is a no-op (state unchanged, no damage call, no
sound) when already invincible — whatever the immortality flag — or when
immortality is active; otherwise it applies damage exactly once, plays one
damage sound, sets `isInvincible` and records `invincibleSince = now`. -/
theorem c7_hit_handler (now : Nat) (b : Bool) (sInv sClr : PlayerState)
    (h1 : sInv.isInvincible = true)
    (h2 : sClr.isInvincible = false) :
    checkHit b now sInv = (sInv, ⟨0, 0⟩) ∧
    checkHit true now sClr = (sClr, ⟨0, 0⟩) ∧
    checkHit false now sClr =
      ({ sClr with isInvincible := true, lastDamageTime := now }, ⟨1, 1⟩) := by
  simp [checkHit, h1, h2]

/-- C7 witness: the hit handler evaluated on an invincible state and on the
fresh state at `now = 777`. -/
theorem c7_hit_handler_witness :
    hitState.isInvincible = true ∧
    initState.isInvincible = false ∧
    (checkHit false 777 hitState = (hitState, ⟨0, 0⟩) ∧
     checkHit true 777 initState = (initState, ⟨0, 0⟩) ∧
     checkHit false 777 initState =
       ({ initState with isInvincible := true, lastDamageTime := 777 },
        ⟨1, 1⟩)) :=
  ⟨rfl, rfl, c7_hit_handler 777 false hitState initState rfl rfl⟩

/-- C10: the `player-hit` dispatch consults no run status: for every
status — playing or not — a hit on a non-invincible, non-immortal state
applies damage once, plays the damage sound and arms the invincibility
timer. -/
theorem c10_hit_ignores_run_status (status : GameStatus) (now : Nat)
    (s : PlayerState) (h : s.isInvincible = false) :
    onPlayerHit status false now s =
      ({ s with isInvincible := true, lastDamageTime := now }, ⟨1, 1⟩) := by
  simp [onPlayerHit, checkHit, h]

/-- C10 witness: a hit arriving during the GameOver status still lands:
damage applied once, sound played, timer armed at `now = 42`. -/
theorem c10_hit_ignores_run_status_witness :
    initState.isInvincible = false ∧
    onPlayerHit GameStatus.gameOver false 42 initState =
      ({ initState with isInvincible := true, lastDamageTime := 42 },
       ⟨1, 1⟩) :=
  ⟨rfl, c10_hit_ignores_run_status GameStatus.gameOver 42 initState rfl⟩

/-- C3: a jump request from the grounded state always starts the first
jump (`verticalVelocity = 16`, `jumpsUsed = 1`), for either value of the
double-jump flag; a second request while airborne with one jump used
succeeds exactly when `hasDoubleJump = true` (then `jumpsUsed = 2`,
`verticalVelocity = 16`, `spinProgress = 0`) and otherwise leaves the state
unchanged. -/
theorem c3_request_jump (hd : Bool) (g a : PlayerState)
    (hg : g.isJumping = false)
    (ha : a.isJumping = true) (ha1 : a.jumpsPerformed = 1) :
    ((triggerJump hd g).1.isJumping = true ∧
     (triggerJump hd g).1.jumpsPerformed = 1 ∧
     (triggerJump hd g).1.velocityY = JUMP_FORCE) ∧
    ((triggerJump true a).1.jumpsPerformed = 2 ∧
     (triggerJump true a).1.velocityY = JUMP_FORCE ∧
     (triggerJump true a).1.spinRotation = 0) ∧
    (triggerJump false a).1 = a := by
  simp [triggerJump, hg, ha, ha1]

/-- C3 witness: the jump contract evaluated on the grounded initial state
(without the double-jump upgrade) and on the one-jump airborne state. -/
theorem c3_request_jump_witness :
    initState.isJumping = false ∧
    airborne1State.isJumping = true ∧
    airborne1State.jumpsPerformed = 1 ∧
    (((triggerJump false initState).1.isJumping = true ∧
      (triggerJump false initState).1.jumpsPerformed = 1 ∧
      (triggerJump false initState).1.velocityY = JUMP_FORCE) ∧
     ((triggerJump true airborne1State).1.jumpsPerformed = 2 ∧
      (triggerJump true airborne1State).1.velocityY = JUMP_FORCE ∧
      (triggerJump true airborne1State).1.spinRotation = 0) ∧
     (triggerJump false airborne1State).1 = airborne1State) :=
  ⟨rfl, rfl, rfl, c3_request_jump false initState airborne1State rfl rfl rfl⟩

/-- The physics step never leaves the floor: either it snaps to 0 or the
integrated height was strictly positive. -/
theorem physicsStep_positionY_nonneg (dt : ℚ) (s : PlayerState)
    (h : 0 ≤ s.positionY) : 0 ≤ (physicsStep dt s).positionY := by
  cases hj : s.isJumping with
  | false => simpa [physicsStep, hj] using h
  | true =>
      by_cases hy : s.positionY + s.velocityY * dt ≤ 0
      · simp [physicsStep, hj, hy]
      · by_cases h2 : s.jumpsPerformed = 2 <;>
          simp [physicsStep, hj, hy, h2] <;>
          linarith [not_le.mp hy]

/-- The visibility block never moves the character. -/
theorem updateVisibility_positionY (immortal : Bool) (now : Nat)
    (s : PlayerState) :
    (updateVisibility immortal now s).positionY = s.positionY := by
  cases hi : s.isInvincible <;> cases immortal <;>
    by_cases ht : 1500 < now - s.lastDamageTime <;>
      simp [updateVisibility, hi, ht]

/-- A jump request never moves the character vertically by itself. -/
theorem triggerJump_positionY (hd : Bool) (s : PlayerState) :
    (triggerJump hd s).1.positionY = s.positionY := by
  simp only [triggerJump]
  repeat' split
  all_goals rfl

/-- Every event preserves a non-negative height. -/
theorem stepEvent_positionY_nonneg (e : Event) (s : PlayerState)
    (h : 0 ≤ s.positionY) : 0 ≤ (stepEvent e s).positionY := by
  cases e with
  | frame status dt now immortal =>
      simp only [stepEvent]
      split
      · rw [updateVisibility_positionY]
        exact physicsStep_positionY_nonneg dt s h
      · exact h
  | jump status hd =>
      simp only [stepEvent]
      split
      · rw [triggerJump_positionY]; exact h
      · exact h
  | shiftLeft status laneCount =>
      simp only [stepEvent]
      split <;> simpa using h
  | shiftRight status laneCount =>
      simp only [stepEvent]
      split <;> simpa using h
  | hit status immortal now =>
      simp only [stepEvent, onPlayerHit, checkHit]
      split <;> simpa using h
  | laneRebound laneCount => simpa [stepEvent] using h
  | resetPlay => simp [stepEvent]

/-- Folding any event list from a state on or above the floor stays on or
above the floor. -/
theorem foldl_positionY_nonneg (evs : List Event) (s : PlayerState)
    (h : 0 ≤ s.positionY) :
    0 ≤ (evs.foldl (fun t e => stepEvent e t) s).positionY := by
  induction evs generalizing s with
  | nil => simpa using h
  | cons e tl ih => exact ih _ (stepEvent_positionY_nonneg e s h)

/-- C5: along every event sequence from the reset state — frames with any
`dt`, jumps, lane shifts, hits, re-clamps, resets — the height at the end
of every tick is never negative. -/
theorem c5_floor_invariant (evs : List Event) : 0 ≤ (run evs).positionY :=
  foldl_positionY_nonneg evs initState (by simp [initState])

/-- C8: from any lane inside the current bound, a shift right or left
equals the spec's `clamp(lane ± 1, -maxLane, +maxLane)`; at the upper
boundary a right shift leaves the lane unchanged. -/
theorem c8_lane_shift_clamps (laneCount : Nat) (l : Int)
    (hlo : -(maxLane laneCount) ≤ l) (hhi : l ≤ maxLane laneCount) :
    laneRight laneCount l =
      max (-(maxLane laneCount)) (min (l + 1) (maxLane laneCount)) ∧
    laneLeft laneCount l =
      max (-(maxLane laneCount)) (min (l - 1) (maxLane laneCount)) ∧
    (l = maxLane laneCount → laneRight laneCount l = l) := by
  unfold laneRight laneLeft maxLane at *
  omega

/-- C8 witness: six lanes give `maxLane = 3`; at `lane = 3` the right shift
is the identity and both shifts agree with the clamp formula. -/
theorem c8_lane_shift_clamps_witness :
    -(maxLane 6) ≤ (3 : Int) ∧ (3 : Int) ≤ maxLane 6 ∧
    (laneRight 6 3 = max (-(maxLane 6)) (min (3 + 1) (maxLane 6)) ∧
     laneLeft 6 3 = max (-(maxLane 6)) (min (3 - 1) (maxLane 6)) ∧
     ((3 : Int) = maxLane 6 → laneRight 6 3 = 3)) :=
  ⟨by decide, by decide, c8_lane_shift_clamps 6 3 (by decide) (by decide)⟩

/-- C9: the lane re-clamp effect equals the clamp into
`[-maxLane, +maxLane]` and therefore always lands inside the bound; with
`lane = 3` and `laneCount = 3` (so `maxLane = 1`) it yields lane 1. -/
theorem c9_reclamp_bounds (laneCount : Nat) (l : Int) :
    reclampLane laneCount l =
      max (min l (maxLane laneCount)) (-(maxLane laneCount)) ∧
    -(maxLane laneCount) ≤ reclampLane laneCount l ∧
    reclampLane laneCount l ≤ maxLane laneCount ∧
    reclampLane 3 3 = 1 := by
  refine ⟨?_, ?_, ?_, by decide⟩ <;>
    · unfold reclampLane maxLane
      split <;> omega

end Runner
